import Mathlib

/-!
# Verification of the Spotify real-time presence and messaging subsystem

Shallow embedding of `src/backend/src/lib/socket.js`: the presence registry
(the module-level `userSockets` JS `Map`), the socket.io authentication
middleware (`io.use`), the connection handler (`io.on("connection")`), the
`sendMessage` handler and the `disconnect` handler.

JS `Map` is modelled as an insertion-ordered association list:
`Map.set` replaces in place or appends, `Map.delete` removes the entry,
`Array.from(map.keys())` is the list of keys in insertion order.
Database calls (Mongoose `findOne` / `create`) are modelled by explicit
outcome parameters (`Except`), since the handlers `await` each of them and
any rejection is caught by the surrounding `try/catch`.
-/

namespace SpotifySocket

abbrev UserId := String
abbrev SocketId := String

/-- `userSockets : Map` — association list with JS `Map` semantics. -/
abbrev Registry := List (UserId × SocketId)

/-- JS `Map.set k v`: overwrite in place if the key is present, else append. -/
def mapSet (m : Registry) (k : UserId) (v : SocketId) : Registry :=
  match m with
  | [] => [(k, v)]
  | (k1, v1) :: rest =>
    if k1 = k then (k, v) :: rest else (k1, v1) :: mapSet rest k v

/-- JS `Map.delete k`: remove the entry with key `k` (first occurrence). -/
def mapDelete (m : Registry) (k : UserId) : Registry :=
  match m with
  | [] => []
  | (k1, v1) :: rest =>
    if k1 = k then rest else (k1, v1) :: mapDelete rest k

/-- JS `Map.get k`. -/
def mapGet (m : Registry) (k : UserId) : Option SocketId :=
  match m with
  | [] => none
  | (k1, v1) :: rest => if k1 = k then some v1 else mapGet rest k

/-- `Array.from(map.keys())`: keys in insertion order. -/
def registryKeys (m : Registry) : List UserId := m.map Prod.fst

/-- A persisted `Message` document (`Message.create`). -/
structure Message where
  senderId : UserId
  receiverId : UserId
  content : String
  id : Nat
  deriving DecidableEq, Repr

/-- A persisted `Notification` document (`Notification.create`). -/
structure Notification where
  userId : UserId
  message : String
  type : String
  messageId : Nat
  deriving DecidableEq, Repr

/-- A `FriendRequest` document, as queried by the friendship check. -/
structure FriendRequestRec where
  senderId : UserId
  receiverId : UserId
  status : String
  deriving DecidableEq, Repr

/-- The Mongoose filter of the friendship check: the record matches
`{$or: [{senderId: a, receiverId: b}, {senderId: b, receiverId: a}], status: "accepted"}`. -/
def acceptedBetween (r : FriendRequestRec) (a b : UserId) : Bool :=
  ((r.senderId = a && r.receiverId = b) || (r.senderId = b && r.receiverId = a))
    && r.status = "accepted"

/-- `FriendRequest.findOne(...)` over the collection. -/
def friendshipQuery (recs : List FriendRequestRec) (a b : UserId) :
    Option FriendRequestRec :=
  recs.find? (fun r => acceptedBetween r a b)

/-- Events emitted over socket.io in this subsystem. -/
inductive Event where
  | messageUpdate (message : Message) (notif : Option Notification)
  | messageError (message : String)
  | userStatusUpdate (userId : UserId) (action : String) (onlineUsers : List UserId)
  deriving DecidableEq, Repr

/-- Observable actions of a handler run, in program order. -/
inductive Effect where
  | queryFriendship (a b : UserId)
  | createMessage (m : Message)
  | createNotification (n : Notification)
  | emitToSocket (sid : SocketId) (ev : Event)
  | emitToAll (ev : Event)
  deriving DecidableEq, Repr

/-- The per-connection context: `socket.id` and the resolved
`socket.user` record (`clerkId`, `fullName`) set by the auth middleware. -/
structure SocketCtx where
  socketId : SocketId
  clerkId : UserId
  fullName : String
  deriving DecidableEq, Repr

/-- The `sendMessage` payload `data`. `content` is `Option`al because a
client may omit it (`content?.trim()` tolerates `undefined`/`null`);
`extra` stands for any additional fields a client ships in the payload
(for instance a claimed sender identity) — the handler never reads them. -/
structure SendPayload where
  receiverId : UserId
  content : Option String
  extra : List (String × String)
  deriving DecidableEq, Repr

/-- Outcomes of the three awaited database calls inside `sendMessage`:
the `FriendRequest.findOne` query (`.error` = rejected promise), the
`Message.create` (on success Mongo assigns `_id`), and the
`Notification.create`. -/
structure DbBehavior where
  friendDb : Except String (List FriendRequestRec)
  messageCreate : Except String Nat
  notificationCreate : Except String Unit
  deriving Repr

/-- Server-side state touched by the handlers: the in-memory presence
registry plus the persisted collections. -/
structure ServerState where
  userSockets : Registry
  messages : List Message
  notifications : List Notification
  deriving DecidableEq, Repr

/-- `content?.trim()`: strip leading and trailing whitespace. -/
def jsTrim (s : String) : String :=
  String.mk (((s.data.dropWhile Char.isWhitespace).reverse.dropWhile
    Char.isWhitespace).reverse)

/-- The message document built by `Message.create({senderId, receiverId, content})`. -/
def mkMessage (senderId receiverId content : String) (id : Nat) : Message :=
  { senderId := senderId, receiverId := receiverId, content := content, id := id }

/-- The notification object embedded in `messagePayload` and persisted by
`Notification.create`. -/
def mkNotification (receiverId fullName : String) (messageId : Nat) : Notification :=
  { userId := receiverId
    message := "New message from " ++ fullName
    type := "message"
    messageId := messageId }

/-- The `catch` branch: `socket.emit("messageError", {message: error.message})`. -/
def errorOut (st : ServerState) (ctx : SocketCtx) (eff : List Effect) (msg : String) :
    ServerState × List Effect :=
  (st, eff ++ [Effect.emitToSocket ctx.socketId (Event.messageError msg)])

/-- The `socket.on("sendMessage")` handler. Every `throw`/rejected `await`
lands in the `catch`, which emits `messageError` to the sender's own socket. -/
def handleSendMessage (st : ServerState) (ctx : SocketCtx) (db : DbBehavior)
    (data : SendPayload) : ServerState × List Effect :=
  let userId := ctx.clerkId
  let trimmedContent := data.content.map jsTrim
  match trimmedContent with
  | none => errorOut st ctx [] "Message cannot be empty"
  | some t =>
    if t = "" then errorOut st ctx [] "Message cannot be empty"
    else
      let eff0 := [Effect.queryFriendship userId data.receiverId]
      match db.friendDb with
      | Except.error e => errorOut st ctx eff0 e
      | Except.ok recs =>
        match friendshipQuery recs userId data.receiverId with
        | none =>
          errorOut st ctx eff0
            "You can only message users who have accepted your friend request"
        | some _ =>
          match db.messageCreate with
          | Except.error e => errorOut st ctx eff0 e
          | Except.ok mid =>
            let message := mkMessage userId data.receiverId t mid
            let st1 := { st with messages := st.messages ++ [message] }
            let eff1 := eff0 ++ [Effect.createMessage message]
            let notif := mkNotification data.receiverId ctx.fullName mid
            match db.notificationCreate with
            | Except.error e => errorOut st1 ctx eff1 e
            | Except.ok _ =>
              let st2 := { st1 with notifications := st1.notifications ++ [notif] }
              let eff2 := eff1 ++ [Effect.createNotification notif]
              let receiverEmits :=
                match mapGet st.userSockets data.receiverId with
                | some rsid =>
                  [Effect.emitToSocket rsid (Event.messageUpdate message (some notif))]
                | none => []
              (st2, eff2 ++ receiverEmits
                ++ [Effect.emitToSocket ctx.socketId (Event.messageUpdate message none)])

/-- The body of `io.on("connection")` up to handler registration:
`userSockets.set(userId, socket.id)` then the `user_status_update` broadcast
with `Array.from(userSockets.keys())`. -/
def handleConnection (st : ServerState) (ctx : SocketCtx) : ServerState × List Effect :=
  let m := mapSet st.userSockets ctx.clerkId ctx.socketId
  ({ st with userSockets := m },
   [Effect.emitToAll (Event.userStatusUpdate ctx.clerkId "connected" (registryKeys m))])

/-- The `socket.on("disconnect")` handler of the connection `ctx`. The
closure captured `userId` (= `ctx.clerkId`) and calls
`userSockets.delete(userId)` unconditionally — `ctx.socketId` is never
consulted. -/
def handleDisconnect (st : ServerState) (ctx : SocketCtx) : ServerState × List Effect :=
  let m := mapDelete st.userSockets ctx.clerkId
  ({ st with userSockets := m },
   [Effect.emitToAll (Event.userStatusUpdate ctx.clerkId "disconnected" (registryKeys m))])

/-- `socket.handshake.auth` as the middleware reads it. `authUserId = none`
models an absent `userId`; the JS falsiness check `if (!userId)` also
rejects the empty string. -/
structure Handshake where
  authUserId : Option UserId
  deriving DecidableEq, Repr

/-- Outcome of `User.findOne({clerkId: userId}).select('clerkId fullName')`. -/
inductive UserLookup where
  | found (clerkId : UserId) (fullName : String)
  | notFound
  | fault (msg : String)
  deriving DecidableEq, Repr

/-- The resolved minimal user record stored as `socket.user`. -/
structure ResolvedUser where
  clerkId : UserId
  fullName : String
  deriving DecidableEq, Repr

/-- The `io.use` authentication middleware: `next(new Error(...))` on an
absent (falsy) `userId`, a missing user record, or a lookup fault; on
success `socket.user` is set and `next()` is called. -/
def resolveUser (hs : Handshake) (lookup : UserLookup) : Except String ResolvedUser :=
  match hs.authUserId with
  | none => Except.error "Authentication error: No user ID provided"
  | some uid =>
    if uid = "" then Except.error "Authentication error: No user ID provided"
    else
      match lookup with
      | UserLookup.found cid name => Except.ok { clerkId := cid, fullName := name }
      | UserLookup.notFound => Except.error "Authentication error: User not found"
      | UserLookup.fault m => Except.error ("Authentication failed: " ++ m)

/-- Full connection admission: the middleware gate, then (only on success)
the connection handler. The returned `Bool` records whether the
`sendMessage`/`disconnect` handlers were attached. A middleware failure
refuses the connection: state untouched, nothing emitted, no handlers. -/
def acceptConnection (st : ServerState) (sid : SocketId) (hs : Handshake)
    (lookup : UserLookup) : ServerState × List Effect × Bool :=
  match resolveUser hs lookup with
  | Except.error _ => (st, [], false)
  | Except.ok u =>
    let p := handleConnection st { socketId := sid, clerkId := u.clerkId, fullName := u.fullName }
    (p.1, p.2, true)

/-- Is this effect a persistence step (`Message.create` or `Notification.create`)? -/
def Effect.isPersist : Effect → Bool
  | Effect.createMessage _ => true
  | Effect.createNotification _ => true
  | _ => false

/-- Is this effect an emit of a `messageUpdate` event (to anyone)? -/
def Effect.isMessageUpdateEmit : Effect → Bool
  | Effect.emitToSocket _ (Event.messageUpdate _ _) => true
  | Effect.emitToAll (Event.messageUpdate _ _) => true
  | _ => false

/-- Is this effect a `messageError` emit to the given socket? -/
def Effect.isMessageErrorTo (sid : SocketId) : Effect → Bool
  | Effect.emitToSocket s (Event.messageError _) => s = sid
  | _ => false

/-- Is this effect the friendship lookup? -/
def Effect.isQueryFriendship : Effect → Bool
  | Effect.queryFriendship _ _ => true
  | _ => false

/-- Number of entries of the registry carrying the given user identity. -/
def countKey (m : Registry) (k : UserId) : Nat :=
  (m.filter (fun p => p.1 = k)).length

/-! ## Lemmas about the JS `Map` model -/

theorem mem_registryKeys_mapSet (m : Registry) (k v : String) (a : String) :
    a ∈ registryKeys (mapSet m k v) ↔ a ∈ registryKeys m ∨ a = k := by
  induction m with
  | nil => simp [mapSet, registryKeys]
  | cons p rest ih =>
    obtain ⟨k1, v1⟩ := p
    by_cases h : k1 = k
    · subst h
      simp [mapSet, registryKeys]
      tauto
    · simp only [mapSet, if_neg h, registryKeys, List.map_cons, List.mem_cons]
      rw [show registryKeys (mapSet rest k v) = List.map Prod.fst (mapSet rest k v) from rfl] at ih
      rw [show registryKeys rest = List.map Prod.fst rest from rfl] at ih
      tauto

theorem registryKeys_mapSet_nodup (m : Registry) (k v : String)
    (h : (registryKeys m).Nodup) : (registryKeys (mapSet m k v)).Nodup := by
  induction m with
  | nil => simp [mapSet, registryKeys]
  | cons p rest ih =>
    obtain ⟨k1, v1⟩ := p
    simp only [registryKeys, List.map_cons, List.nodup_cons] at h
    by_cases hk : k1 = k
    · subst hk
      simpa [mapSet, registryKeys] using h
    · simp only [mapSet, if_neg hk, registryKeys, List.map_cons, List.nodup_cons]
      refine ⟨?_, ih h.2⟩
      intro hmem
      rcases (mem_registryKeys_mapSet rest k v k1).1 hmem with h1 | h1
      · exact h.1 h1
      · exact hk h1

theorem mem_registryKeys_mapDelete (m : Registry) (k a : String) :
    a ∈ registryKeys (mapDelete m k) → a ∈ registryKeys m := by
  induction m with
  | nil => simp [mapDelete]
  | cons p rest ih =>
    obtain ⟨k1, v1⟩ := p
    by_cases h : k1 = k
    · subst h
      simp only [mapDelete, if_pos rfl, registryKeys, List.map_cons, List.mem_cons]
      tauto
    · simp only [mapDelete, if_neg h, registryKeys, List.map_cons, List.mem_cons]
      intro hmem
      rcases hmem with h1 | h1
      · exact Or.inl h1
      · exact Or.inr (ih h1)

theorem registryKeys_mapDelete_nodup (m : Registry) (k : String)
    (h : (registryKeys m).Nodup) : (registryKeys (mapDelete m k)).Nodup := by
  induction m with
  | nil => simp [mapDelete, registryKeys]
  | cons p rest ih =>
    obtain ⟨k1, v1⟩ := p
    simp only [registryKeys, List.map_cons, List.nodup_cons] at h
    by_cases hk : k1 = k
    · subst hk
      simpa [mapDelete, registryKeys] using h.2
    · simp only [mapDelete, if_neg hk, registryKeys, List.map_cons, List.nodup_cons]
      exact ⟨fun hmem => h.1 (mem_registryKeys_mapDelete rest k k1 hmem), ih h.2⟩

theorem not_mem_registryKeys_mapDelete (m : Registry) (k : String)
    (h : (registryKeys m).Nodup) : k ∉ registryKeys (mapDelete m k) := by
  induction m with
  | nil => simp [mapDelete, registryKeys]
  | cons p rest ih =>
    obtain ⟨k1, v1⟩ := p
    simp only [registryKeys, List.map_cons, List.nodup_cons] at h
    by_cases hk : k1 = k
    · subst hk
      simpa [mapDelete, registryKeys] using h.1
    · simp only [mapDelete, if_neg hk, registryKeys, List.map_cons, List.mem_cons]
      push_neg
      exact ⟨fun he => hk he.symm, ih h.2⟩

theorem mem_registryKeys_mapSet_self (m : Registry) (k v : String) :
    k ∈ registryKeys (mapSet m k v) :=
  (mem_registryKeys_mapSet m k v k).2 (Or.inr rfl)

theorem mapGet_mapSet_self (m : Registry) (k v : String) :
    mapGet (mapSet m k v) k = some v := by
  induction m with
  | nil => simp [mapSet, mapGet]
  | cons p rest ih =>
    obtain ⟨k1, v1⟩ := p
    by_cases h : k1 = k
    · subst h
      simp [mapSet, mapGet]
    · simp [mapSet, mapGet, if_neg h, ih]

theorem countKey_le_one_of_nodup (m : Registry) (k : String)
    (h : (registryKeys m).Nodup) : countKey m k ≤ 1 := by
  induction m with
  | nil => simp [countKey]
  | cons p rest ih =>
    obtain ⟨k1, v1⟩ := p
    simp only [registryKeys, List.map_cons, List.nodup_cons] at h
    by_cases hk : k1 = k
    · subst hk
      have hz : countKey rest k1 = 0 := by
        simp only [countKey, List.length_eq_zero, List.filter_eq_nil_iff]
        intro p hp hmatch
        exact absurd (List.mem_map_of_mem Prod.fst hp)
          (by simpa [registryKeys, of_decide_eq_true hmatch] using h.1)
      have h1 : countKey ((k1, v1) :: rest) k1 = countKey rest k1 + 1 := by
        simp [countKey, List.filter_cons]
      omega
    · simpa [countKey, List.filter_cons, hk] using ih h.2

theorem one_le_countKey_of_mem (m : Registry) (k : String)
    (h : k ∈ registryKeys m) : 1 ≤ countKey m k := by
  induction m with
  | nil => simp [registryKeys] at h
  | cons p rest ih =>
    obtain ⟨k1, v1⟩ := p
    by_cases hk : k1 = k
    · subst hk
      simp [countKey, List.filter_cons]
    · simp only [registryKeys, List.map_cons, List.mem_cons] at h
      rcases h with h | h
      · exact absurd h.symm hk
      · simpa [countKey, List.filter_cons, hk] using ih h

/-- Is this effect any socket emission at all? -/
def Effect.isEmit : Effect → Bool
  | Effect.emitToSocket _ _ => true
  | Effect.emitToAll _ => true
  | _ => false

/-! ## Claim theorems -/

/-- C1 (code behaviour at the failing input): after `register("U","h1")` then
`register("U","h2")`, the registry holds `"U" ↦ "h2"`; yet when the stale
connection `h1`'s disconnect handler fires, `userSockets.delete(userId)`
removes the entry unconditionally, so `"U"` is no longer online — contrary
to the claim that removal happens only when the stored handle still equals
the disconnecting handle. -/
theorem C1_stale_disconnect_removes_fresh_entry :
    (mapGet (handleConnection (handleConnection ⟨[], [], []⟩
        ⟨"h1", "U", "Alice"⟩).1 ⟨"h2", "U", "Alice"⟩).1.userSockets "U" = some "h2")
    ∧ (mapGet (handleDisconnect (handleConnection (handleConnection ⟨[], [], []⟩
        ⟨"h1", "U", "Alice"⟩).1 ⟨"h2", "U", "Alice"⟩).1
        ⟨"h1", "U", "Alice"⟩).1.userSockets "U" = none) := by
  decide

/-- C2: assuming the presence registry has at most one entry per identity
(pairwise distinct keys), every connect and every disconnect preserves this;
a second `register` for an identity overwrites the existing entry
(the stored handle becomes the new one, and exactly one entry remains),
rather than adding a second entry. -/
theorem C2_at_most_one_presence_entry (st : ServerState) (ctx dctx : SocketCtx)
    (u : UserId) (h : (registryKeys st.userSockets).Nodup) :
    countKey (handleConnection st ctx).1.userSockets u ≤ 1 ∧
    countKey (handleDisconnect st dctx).1.userSockets u ≤ 1 ∧
    mapGet (handleConnection st ctx).1.userSockets ctx.clerkId = some ctx.socketId ∧
    countKey (handleConnection st ctx).1.userSockets ctx.clerkId = 1 := by
  have hset : (handleConnection st ctx).1.userSockets
      = mapSet st.userSockets ctx.clerkId ctx.socketId := rfl
  have hdel : (handleDisconnect st dctx).1.userSockets
      = mapDelete st.userSockets dctx.clerkId := rfl
  refine ⟨?_, ?_, ?_, ?_⟩
  · rw [hset]
    exact countKey_le_one_of_nodup _ u (registryKeys_mapSet_nodup _ _ _ h)
  · rw [hdel]
    exact countKey_le_one_of_nodup _ u (registryKeys_mapDelete_nodup _ _ h)
  · rw [hset]
    exact mapGet_mapSet_self _ _ _
  · rw [hset]
    exact Nat.le_antisymm
      (countKey_le_one_of_nodup _ _ (registryKeys_mapSet_nodup _ _ _ h))
      (one_le_countKey_of_mem _ _ (mem_registryKeys_mapSet_self _ _ _))

/-- Witness for C2 at a concrete state: registry `[("U","h1")]`, a second
connect of `"U"` on handle `"h2"`, and a disconnect of `"V"`. -/
theorem C2_at_most_one_presence_entry_witness :
    countKey (handleConnection ⟨[("U", "h1")], [], []⟩
      ⟨"h2", "U", "Alice"⟩).1.userSockets "U" ≤ 1 ∧
    countKey (handleDisconnect ⟨[("U", "h1")], [], []⟩
      ⟨"hv", "V", "Bob"⟩).1.userSockets "U" ≤ 1 ∧
    mapGet (handleConnection ⟨[("U", "h1")], [], []⟩
      ⟨"h2", "U", "Alice"⟩).1.userSockets "U" = some "h2" ∧
    countKey (handleConnection ⟨[("U", "h1")], [], []⟩
      ⟨"h2", "U", "Alice"⟩).1.userSockets "U" = 1 :=
  C2_at_most_one_presence_entry ⟨[("U", "h1")], [], []⟩
    ⟨"h2", "U", "Alice"⟩ ⟨"hv", "V", "Bob"⟩ "U" (by decide)

/-- C6: the `user_status_update` broadcast carries the roster AFTER the
triggering update: on connect it is exactly the keys of the updated
registry and contains the connecting user; on disconnect it is exactly
the keys of the updated registry and does not contain the disconnecting
user (given at most one entry per identity beforehand). -/
theorem C6_roster_reflects_state_after_update (st : ServerState)
    (ctx dctx : SocketCtx) (h : (registryKeys st.userSockets).Nodup) :
    (handleConnection st ctx).2 =
      [Effect.emitToAll (Event.userStatusUpdate ctx.clerkId "connected"
        (registryKeys (handleConnection st ctx).1.userSockets))] ∧
    ctx.clerkId ∈ registryKeys (handleConnection st ctx).1.userSockets ∧
    (handleDisconnect st dctx).2 =
      [Effect.emitToAll (Event.userStatusUpdate dctx.clerkId "disconnected"
        (registryKeys (handleDisconnect st dctx).1.userSockets))] ∧
    dctx.clerkId ∉ registryKeys (handleDisconnect st dctx).1.userSockets := by
  refine ⟨rfl, ?_, rfl, ?_⟩
  · exact mem_registryKeys_mapSet_self _ _ _
  · exact not_mem_registryKeys_mapDelete _ _ h

/-- Witness for C6 at a concrete state: registry `[("U","h1"),("V","hv")]`,
`"W"` connects, `"V"` disconnects. -/
theorem C6_roster_reflects_state_after_update_witness :
    (handleConnection ⟨[("U", "h1"), ("V", "hv")], [], []⟩ ⟨"hw", "W", "Cara"⟩).2 =
      [Effect.emitToAll (Event.userStatusUpdate "W" "connected"
        (registryKeys (handleConnection ⟨[("U", "h1"), ("V", "hv")], [], []⟩
          ⟨"hw", "W", "Cara"⟩).1.userSockets))] ∧
    "W" ∈ registryKeys (handleConnection ⟨[("U", "h1"), ("V", "hv")], [], []⟩
      ⟨"hw", "W", "Cara"⟩).1.userSockets ∧
    (handleDisconnect ⟨[("U", "h1"), ("V", "hv")], [], []⟩ ⟨"hv", "V", "Bob"⟩).2 =
      [Effect.emitToAll (Event.userStatusUpdate "V" "disconnected"
        (registryKeys (handleDisconnect ⟨[("U", "h1"), ("V", "hv")], [], []⟩
          ⟨"hv", "V", "Bob"⟩).1.userSockets))] ∧
    "V" ∉ registryKeys (handleDisconnect ⟨[("U", "h1"), ("V", "hv")], [], []⟩
      ⟨"hv", "V", "Bob"⟩).1.userSockets :=
  C6_roster_reflects_state_after_update ⟨[("U", "h1"), ("V", "hv")], [], []⟩
    ⟨"hw", "W", "Cara"⟩ ⟨"hv", "V", "Bob"⟩ (by decide)

/-- C3: when the friendship query succeeds but finds no accepted record
between the sender and the receiver (in either direction), the send mutates
no state (no Message, no Notification persisted), emits no `messageUpdate`
to anyone, and the sender's own socket receives a `messageError`. -/
theorem C3_send_to_non_friend_rejected (st : ServerState) (ctx : SocketCtx)
    (db : DbBehavior) (data : SendPayload) (recs : List FriendRequestRec)
    (hdb : db.friendDb = Except.ok recs)
    (hnf : ∀ r ∈ recs, acceptedBetween r ctx.clerkId data.receiverId = false) :
    (handleSendMessage st ctx db data).1 = st ∧
    ((handleSendMessage st ctx db data).2.any
      (Effect.isMessageErrorTo ctx.socketId) = true) ∧
    (∀ e ∈ (handleSendMessage st ctx db data).2,
      e.isPersist = false ∧ e.isMessageUpdateEmit = false) := by
  have hq : friendshipQuery recs ctx.clerkId data.receiverId = none := by
    apply List.find?_eq_none.2
    intro r hr
    simp [hnf r hr]
  cases hcontent : data.content with
  | none =>
    simp [handleSendMessage, hcontent, errorOut, Effect.isMessageErrorTo,
      Effect.isPersist, Effect.isMessageUpdateEmit]
  | some t =>
    by_cases ht : jsTrim t = ""
    · simp [handleSendMessage, hcontent, ht, errorOut, Effect.isMessageErrorTo,
        Effect.isPersist, Effect.isMessageUpdateEmit]
    · simp [handleSendMessage, hcontent, ht, hdb, hq, errorOut,
        Effect.isMessageErrorTo, Effect.isPersist, Effect.isMessageUpdateEmit]

/-- Witness for C3: `"A"` sends `"hello"` to `"B"` while the only friendship
record between them is still `"pending"`. -/
theorem C3_send_to_non_friend_rejected_witness :
    (handleSendMessage ⟨[("A", "ha")], [], []⟩ ⟨"ha", "A", "Alice"⟩
      ⟨Except.ok [⟨"A", "B", "pending"⟩], Except.ok 1, Except.ok ()⟩
      ⟨"B", some "hello", []⟩).1 = ⟨[("A", "ha")], [], []⟩ ∧
    ((handleSendMessage ⟨[("A", "ha")], [], []⟩ ⟨"ha", "A", "Alice"⟩
      ⟨Except.ok [⟨"A", "B", "pending"⟩], Except.ok 1, Except.ok ()⟩
      ⟨"B", some "hello", []⟩).2.any (Effect.isMessageErrorTo "ha") = true) ∧
    (∀ e ∈ (handleSendMessage ⟨[("A", "ha")], [], []⟩ ⟨"ha", "A", "Alice"⟩
      ⟨Except.ok [⟨"A", "B", "pending"⟩], Except.ok 1, Except.ok ()⟩
      ⟨"B", some "hello", []⟩).2,
      e.isPersist = false ∧ e.isMessageUpdateEmit = false) :=
  C3_send_to_non_friend_rejected ⟨[("A", "ha")], [], []⟩ ⟨"ha", "A", "Alice"⟩
    ⟨Except.ok [⟨"A", "B", "pending"⟩], Except.ok 1, Except.ok ()⟩
    ⟨"B", some "hello", []⟩ [⟨"A", "B", "pending"⟩] rfl (by decide)

/-- C4: a payload whose content trims to the empty string is rejected with
`messageError "Message cannot be empty"` and nothing else happens: the
returned state is the input state and the effect trace contains neither the
friendship query nor any persistence step. -/
theorem C4_empty_content_rejected_first (st : ServerState) (ctx : SocketCtx)
    (db : DbBehavior) (data : SendPayload) (c : String)
    (hc : data.content = some c) (ht : jsTrim c = "") :
    handleSendMessage st ctx db data =
      (st, [Effect.emitToSocket ctx.socketId
        (Event.messageError "Message cannot be empty")]) ∧
    (∀ e ∈ (handleSendMessage st ctx db data).2,
      e.isQueryFriendship = false ∧ e.isPersist = false) := by
  refine ⟨?_, ?_⟩
  · simp [handleSendMessage, hc, ht, errorOut]
  · simp [handleSendMessage, hc, ht, errorOut, Effect.isQueryFriendship,
      Effect.isPersist]

/-- Witness for C4: whitespace-only content `"   "`. -/
theorem C4_empty_content_rejected_first_witness :
    handleSendMessage ⟨[], [], []⟩ ⟨"ha", "A", "Alice"⟩
      ⟨Except.ok [⟨"A", "B", "accepted"⟩], Except.ok 1, Except.ok ()⟩
      ⟨"B", some "   ", []⟩ =
      (⟨[], [], []⟩, [Effect.emitToSocket "ha"
        (Event.messageError "Message cannot be empty")]) ∧
    (∀ e ∈ (handleSendMessage ⟨[], [], []⟩ ⟨"ha", "A", "Alice"⟩
      ⟨Except.ok [⟨"A", "B", "accepted"⟩], Except.ok 1, Except.ok ()⟩
      ⟨"B", some "   ", []⟩).2,
      e.isQueryFriendship = false ∧ e.isPersist = false) :=
  C4_empty_content_rejected_first ⟨[], [], []⟩ ⟨"ha", "A", "Alice"⟩
    ⟨Except.ok [⟨"A", "B", "accepted"⟩], Except.ok 1, Except.ok ()⟩
    ⟨"B", some "   ", []⟩ "   " rfl (by decide)

/-- C10: a payload with no content field at all (`undefined`/`null`) does not
crash the handler: `content?.trim()` is total, the run takes exactly the
same empty-content rejection path (same result as content `""`), the sender
gets the `messageError`, and no state is mutated. -/
theorem C10_absent_content_total (st : ServerState) (ctx : SocketCtx)
    (db : DbBehavior) (data : SendPayload) (hc : data.content = none) :
    handleSendMessage st ctx db data =
      (st, [Effect.emitToSocket ctx.socketId
        (Event.messageError "Message cannot be empty")]) ∧
    handleSendMessage st ctx db data =
      handleSendMessage st ctx db
        { receiverId := data.receiverId, content := some "", extra := data.extra } := by
  have hz : jsTrim "" = "" := rfl
  refine ⟨?_, ?_⟩
  · simp [handleSendMessage, hc, errorOut]
  · simp [handleSendMessage, hc, errorOut, hz]

/-- Witness for C10: a payload whose `content` is absent. -/
theorem C10_absent_content_total_witness :
    handleSendMessage ⟨[], [], []⟩ ⟨"ha", "A", "Alice"⟩
      ⟨Except.ok [], Except.ok 1, Except.ok ()⟩ ⟨"B", none, []⟩ =
      (⟨[], [], []⟩, [Effect.emitToSocket "ha"
        (Event.messageError "Message cannot be empty")]) ∧
    handleSendMessage ⟨[], [], []⟩ ⟨"ha", "A", "Alice"⟩
      ⟨Except.ok [], Except.ok 1, Except.ok ()⟩ ⟨"B", none, []⟩ =
      handleSendMessage ⟨[], [], []⟩ ⟨"ha", "A", "Alice"⟩
        ⟨Except.ok [], Except.ok 1, Except.ok ()⟩
        { receiverId := "B", content := some "", extra := [] } :=
  C10_absent_content_total ⟨[], [], []⟩ ⟨"ha", "A", "Alice"⟩
    ⟨Except.ok [], Except.ok 1, Except.ok ()⟩ ⟨"B", none, []⟩ rfl

/-- C5: on a successful send the `messageUpdate` emissions are exactly: a
copy to the receiver's socket bundling the message and the notification
when (and only when) the receiver has a presence entry at the moment of
send, plus — always, in either case — a confirmation to the sender's own
socket carrying the message with no notification field. Nothing is queued
for an offline receiver: no other `messageUpdate` emission exists. -/
theorem C5_delivery_and_confirmation (st : ServerState) (ctx : SocketCtx)
    (db : DbBehavior) (data : SendPayload) (c : String) (mid : Nat)
    (recs : List FriendRequestRec) (r : FriendRequestRec)
    (hc : data.content = some c) (ht : jsTrim c ≠ "")
    (hdb : db.friendDb = Except.ok recs)
    (hf : friendshipQuery recs ctx.clerkId data.receiverId = some r)
    (hm : db.messageCreate = Except.ok mid)
    (hn : db.notificationCreate = Except.ok ()) :
    (handleSendMessage st ctx db data).2.filter Effect.isMessageUpdateEmit =
      (match mapGet st.userSockets data.receiverId with
       | some rsid => [Effect.emitToSocket rsid (Event.messageUpdate
           (mkMessage ctx.clerkId data.receiverId (jsTrim c) mid)
           (some (mkNotification data.receiverId ctx.fullName mid)))]
       | none => []) ++
      [Effect.emitToSocket ctx.socketId (Event.messageUpdate
        (mkMessage ctx.clerkId data.receiverId (jsTrim c) mid) none)] := by
  cases hr : mapGet st.userSockets data.receiverId with
  | none =>
    simp [handleSendMessage, hc, ht, hdb, hf, hm, hn, hr, errorOut,
      List.filter, Effect.isMessageUpdateEmit]
  | some rsid =>
    simp [handleSendMessage, hc, ht, hdb, hf, hm, hn, hr, errorOut,
      List.filter, Effect.isMessageUpdateEmit]

/-- Witness for C5: friends `"A"` and `"B"`, `"B"` online at `"hb"`. -/
theorem C5_delivery_and_confirmation_witness :
    (handleSendMessage ⟨[("A", "ha"), ("B", "hb")], [], []⟩ ⟨"ha", "A", "Alice"⟩
      ⟨Except.ok [⟨"A", "B", "accepted"⟩], Except.ok 7, Except.ok ()⟩
      ⟨"B", some "hi", []⟩).2.filter Effect.isMessageUpdateEmit =
      (match mapGet [("A", "ha"), ("B", "hb")] "B" with
       | some rsid => [Effect.emitToSocket rsid (Event.messageUpdate
           (mkMessage "A" "B" (jsTrim "hi") 7)
           (some (mkNotification "B" "Alice" 7)))]
       | none => []) ++
      [Effect.emitToSocket "ha" (Event.messageUpdate
        (mkMessage "A" "B" (jsTrim "hi") 7) none)] :=
  C5_delivery_and_confirmation ⟨[("A", "ha"), ("B", "hb")], [], []⟩
    ⟨"ha", "A", "Alice"⟩
    ⟨Except.ok [⟨"A", "B", "accepted"⟩], Except.ok 7, Except.ok ()⟩
    ⟨"B", some "hi", []⟩ "hi" 7 [⟨"A", "B", "accepted"⟩]
    ⟨"A", "B", "accepted"⟩ rfl (by decide) rfl (by decide) rfl rfl

/-- C7: when `Notification.create` fails after `Message.create` succeeded,
the Message stays persisted (no rollback), no Notification is persisted,
and the only emission of the whole run is a `messageError` to the sender's
own socket — in particular no `messageUpdate` reaches the receiver or the
sender, and the receiver is never notified of the failed attempt. -/
theorem C7_notification_failure_no_rollback (st : ServerState) (ctx : SocketCtx)
    (db : DbBehavior) (data : SendPayload) (c : String) (mid : Nat)
    (recs : List FriendRequestRec) (r : FriendRequestRec) (e1 : String)
    (hc : data.content = some c) (ht : jsTrim c ≠ "")
    (hdb : db.friendDb = Except.ok recs)
    (hf : friendshipQuery recs ctx.clerkId data.receiverId = some r)
    (hm : db.messageCreate = Except.ok mid)
    (hn : db.notificationCreate = Except.error e1) :
    (handleSendMessage st ctx db data).1.messages =
      st.messages ++ [mkMessage ctx.clerkId data.receiverId (jsTrim c) mid] ∧
    (handleSendMessage st ctx db data).1.notifications = st.notifications ∧
    (handleSendMessage st ctx db data).2.filter Effect.isEmit =
      [Effect.emitToSocket ctx.socketId (Event.messageError e1)] := by
  refine ⟨?_, ?_, ?_⟩ <;>
    simp [handleSendMessage, hc, ht, hdb, hf, hm, hn, errorOut,
      List.filter, Effect.isEmit]

/-- Witness for C7: the notification store rejects with `"db down"`. -/
theorem C7_notification_failure_no_rollback_witness :
    (handleSendMessage ⟨[("A", "ha"), ("B", "hb")], [], []⟩ ⟨"ha", "A", "Alice"⟩
      ⟨Except.ok [⟨"A", "B", "accepted"⟩], Except.ok 7, Except.error "db down"⟩
      ⟨"B", some "hi", []⟩).1.messages = [] ++ [mkMessage "A" "B" (jsTrim "hi") 7] ∧
    (handleSendMessage ⟨[("A", "ha"), ("B", "hb")], [], []⟩ ⟨"ha", "A", "Alice"⟩
      ⟨Except.ok [⟨"A", "B", "accepted"⟩], Except.ok 7, Except.error "db down"⟩
      ⟨"B", some "hi", []⟩).1.notifications = [] ∧
    (handleSendMessage ⟨[("A", "ha"), ("B", "hb")], [], []⟩ ⟨"ha", "A", "Alice"⟩
      ⟨Except.ok [⟨"A", "B", "accepted"⟩], Except.ok 7, Except.error "db down"⟩
      ⟨"B", some "hi", []⟩).2.filter Effect.isEmit =
      [Effect.emitToSocket "ha" (Event.messageError "db down")] :=
  C7_notification_failure_no_rollback ⟨[("A", "ha"), ("B", "hb")], [], []⟩
    ⟨"ha", "A", "Alice"⟩
    ⟨Except.ok [⟨"A", "B", "accepted"⟩], Except.ok 7, Except.error "db down"⟩
    ⟨"B", some "hi", []⟩ "hi" 7 [⟨"A", "B", "accepted"⟩]
    ⟨"A", "B", "accepted"⟩ "db down" rfl (by decide) rfl (by decide) rfl rfl

/-- In every run of the `sendMessage` handler, any `Message.create` uses the
connection's `clerkId` as sender and any `Notification.create` builds its
text from the connection's `fullName`. -/
theorem sendMessage_created_docs (st : ServerState) (ctx : SocketCtx)
    (db : DbBehavior) (data : SendPayload) :
    (∀ e ∈ (handleSendMessage st ctx db data).2, ∀ m,
      e = Effect.createMessage m → m.senderId = ctx.clerkId) ∧
    (∀ e ∈ (handleSendMessage st ctx db data).2, ∀ n,
      e = Effect.createNotification n →
        n.message = "New message from " ++ ctx.fullName) := by
  cases hcontent : data.content with
  | none => simp [handleSendMessage, hcontent, errorOut]
  | some t =>
    by_cases ht : jsTrim t = ""
    · simp [handleSendMessage, hcontent, ht, errorOut]
    · cases hdb : db.friendDb with
      | error e1 => simp [handleSendMessage, hcontent, ht, hdb, errorOut]
      | ok recs =>
        cases hq : friendshipQuery recs ctx.clerkId data.receiverId with
        | none => simp [handleSendMessage, hcontent, ht, hdb, hq, errorOut]
        | some r =>
          cases hmc : db.messageCreate with
          | error e1 =>
            simp [handleSendMessage, hcontent, ht, hdb, hq, hmc, errorOut]
          | ok mid =>
            cases hnc : db.notificationCreate with
            | error e1 =>
              simp [handleSendMessage, hcontent, ht, hdb, hq, hmc, hnc,
                errorOut, mkMessage]
            | ok u =>
              cases hg : mapGet st.userSockets data.receiverId with
              | none =>
                simp [handleSendMessage, hcontent, ht, hdb, hq, hmc, hnc, hg,
                  errorOut, mkMessage, mkNotification]
              | some rsid =>
                simp [handleSendMessage, hcontent, ht, hdb, hq, hmc, hnc, hg,
                  errorOut, mkMessage, mkNotification]

/-- C8: the handler reads only `receiverId` and `content` from the payload —
two payloads differing in any extra fields (such as a claimed sender
identity) produce identical runs; and every persisted Message carries the
authenticated connection's identity as sender, every persisted Notification
text is built from the authenticated connection's display name. -/
theorem C8_sender_identity_from_connection (st : ServerState) (ctx : SocketCtx)
    (db : DbBehavior) (d1 d2 : SendPayload)
    (hr : d1.receiverId = d2.receiverId) (hc : d1.content = d2.content) :
    handleSendMessage st ctx db d1 = handleSendMessage st ctx db d2 ∧
    (∀ e ∈ (handleSendMessage st ctx db d1).2, ∀ m,
      e = Effect.createMessage m → m.senderId = ctx.clerkId) ∧
    (∀ e ∈ (handleSendMessage st ctx db d1).2, ∀ n,
      e = Effect.createNotification n →
        n.message = "New message from " ++ ctx.fullName) := by
  refine ⟨?_, (sendMessage_created_docs st ctx db d1).1,
    (sendMessage_created_docs st ctx db d1).2⟩
  obtain ⟨r1, c1, x1⟩ := d1
  obtain ⟨r2, c2, x2⟩ := d2
  simp only at hr hc
  subst hr
  subst hc
  simp [handleSendMessage]

/-- Witness for C8: two payloads identical up to an extra claimed-sender
field. -/
theorem C8_sender_identity_from_connection_witness :
    handleSendMessage ⟨[("A", "ha"), ("B", "hb")], [], []⟩ ⟨"ha", "A", "Alice"⟩
      ⟨Except.ok [⟨"A", "B", "accepted"⟩], Except.ok 7, Except.ok ()⟩
      ⟨"B", some "hi", []⟩ =
    handleSendMessage ⟨[("A", "ha"), ("B", "hb")], [], []⟩ ⟨"ha", "A", "Alice"⟩
      ⟨Except.ok [⟨"A", "B", "accepted"⟩], Except.ok 7, Except.ok ()⟩
      ⟨"B", some "hi", [("senderId", "Mallory")]⟩ ∧
    (∀ e ∈ (handleSendMessage ⟨[("A", "ha"), ("B", "hb")], [], []⟩
      ⟨"ha", "A", "Alice"⟩
      ⟨Except.ok [⟨"A", "B", "accepted"⟩], Except.ok 7, Except.ok ()⟩
      ⟨"B", some "hi", []⟩).2, ∀ m,
      e = Effect.createMessage m → m.senderId = "A") ∧
    (∀ e ∈ (handleSendMessage ⟨[("A", "ha"), ("B", "hb")], [], []⟩
      ⟨"ha", "A", "Alice"⟩
      ⟨Except.ok [⟨"A", "B", "accepted"⟩], Except.ok 7, Except.ok ()⟩
      ⟨"B", some "hi", []⟩).2, ∀ n,
      e = Effect.createNotification n →
        n.message = "New message from " ++ "Alice") :=
  C8_sender_identity_from_connection ⟨[("A", "ha"), ("B", "hb")], [], []⟩
    ⟨"ha", "A", "Alice"⟩
    ⟨Except.ok [⟨"A", "B", "accepted"⟩], Except.ok 7, Except.ok ()⟩
    ⟨"B", some "hi", []⟩ ⟨"B", some "hi", [("senderId", "Mallory")]⟩ rfl rfl

/-- C9: a connection whose handshake lacks the identity token, or whose user
lookup finds no record or faults, is refused by the middleware: the
registry is untouched, nothing is broadcast, and no handlers are attached. -/
theorem C9_failed_auth_never_registers (st : ServerState) (sid : SocketId)
    (hs : Handshake) (lookup : UserLookup)
    (h : hs.authUserId = none ∨ lookup = UserLookup.notFound ∨
      ∃ m, lookup = UserLookup.fault m) :
    acceptConnection st sid hs lookup = (st, [], false) := by
  have herr : ∃ e, resolveUser hs lookup = Except.error e := by
    cases huid : hs.authUserId with
    | none =>
      exact ⟨"Authentication error: No user ID provided",
        by simp [resolveUser, huid]⟩
    | some uid =>
      by_cases hu : uid = ""
      · exact ⟨"Authentication error: No user ID provided",
          by simp [resolveUser, huid, hu]⟩
      · rcases h with h | h | ⟨m, h⟩
        · exact absurd huid (by simp [h])
        · exact ⟨"Authentication error: User not found",
            by simp [resolveUser, huid, hu, h]⟩
        · exact ⟨"Authentication failed: " ++ m,
            by simp [resolveUser, huid, hu, h]⟩
  obtain ⟨e, he⟩ := herr
  simp [acceptConnection, he]

/-- Witness for C9: a handshake with no `userId` at all. -/
theorem C9_failed_auth_never_registers_witness :
    acceptConnection ⟨[], [], []⟩ "h1" ⟨none⟩ (UserLookup.found "U" "Alice") =
      (⟨[], [], []⟩, [], false) :=
  C9_failed_auth_never_registers ⟨[], [], []⟩ "h1" ⟨none⟩
    (UserLookup.found "U" "Alice") (Or.inl rfl)

end SpotifySocket
